import Mathlib

/-!
Shallow embedding of the healthcare ETL pipeline core
(`et_pipeline.py`: `extract_and_validate_csv` and `main_etl_process`).

Rows of the uploaded CSV are modelled as records of optional strings
(`none` = empty/missing cell).  The Cleaner, Deduplicator and Keyer stages
are translated from the pandas code:

* column-name normalization: `col.replace(" ", "_")`;
* trimming of text cells: `.str.strip()`;
* `pd.to_numeric(..., errors='coerce')` for `Billing_Amount` (after
  stripping `$` and `,`) and `Age`;
* `pd.to_datetime(..., format='%m/%d/%Y', errors='coerce')` for the two
  date columns;
* `dropna(subset=['Name', 'Date_of_Admission'])`;
* `drop_duplicates()` (keep first);
* `groupby(group_cols, as_index=False).agg({'Age': 'min'})` where
  `group_cols` is every column except `Age`; pandas `groupby` with its
  default `dropna=True` silently excludes every row whose key contains a
  null, sorts the group keys lexicographically (`sort=True`) and takes
  the skip-NA minimum of `Age`;
* the SHA-256 business key over
  `Name|Date_of_Admission|Doctor|Hospital|Medical_Condition`
  (`fillna('')`, `astype(str)` — a midnight `datetime64` renders as
  `YYYY-MM-DD` — then `'|'.join` and `hashlib.sha256(x.encode()).hexdigest()`).
-/

/-- Digits of a numeral read most-significant first, as `int`/`float` parsing does. -/
def digitsToNat (cs : List Char) : Nat :=
  cs.foldl (fun n c => 10 * n + (c.toNat - Char.toNat '0')) 0

/-- Splitting of a character list at every occurrence of a separator
(`str.split(sep)` semantics: n separators give n+1 pieces). -/
def splitOnChar (sep : Char) : List Char → List (List Char)
  | [] => [[]]
  | c :: cs =>
    if c = sep then [] :: splitOnChar sep cs
    else
      match splitOnChar sep cs with
      | [] => [[c]]
      | g :: gs => (c :: g) :: gs

/-- Unsigned decimal numeral: digits with an optional fractional part, as
accepted by `pd.to_numeric` for plain (non-scientific) numerals; the value
of `w.f` is `digits(w ++ f) / 10 ^ |f|`. -/
def parseUnsignedDec (cs : List Char) : Option ℚ :=
  match splitOnChar '.' cs with
  | [w] =>
    if !w.isEmpty && w.all Char.isDigit then some (mkRat (digitsToNat w) 1) else none
  | [w, f] =>
    if (!w.isEmpty || !f.isEmpty) && w.all Char.isDigit && f.all Char.isDigit then
      some (mkRat (digitsToNat (w ++ f)) (10 ^ f.length))
    else none
  | _ => none

/-- Model of `pd.to_numeric(x, errors='coerce')` on one text cell: an optional
sign followed by a decimal numeral, anything else coerces to null. -/
def toNumeric (s : String) : Option ℚ :=
  match s.data with
  | '-' :: rest => (parseUnsignedDec rest).map (fun q => -q)
  | '+' :: rest => parseUnsignedDec rest
  | cs => parseUnsignedDec cs

/-- Calendar date as stored in a `datetime64` cell (always midnight here,
because `%m/%d/%Y` carries no time of day). -/
structure Date where
  year : Nat
  month : Nat
  day : Nat
deriving DecidableEq

/-- Gregorian leap-year test, as used by `datetime`. -/
def isLeap (y : Nat) : Bool :=
  (y % 4 == 0 && y % 100 != 0) || (y % 400 == 0)

/-- Number of days of a month, as validated by `datetime`. -/
def daysInMonth (y m : Nat) : Nat :=
  if m = 2 then (if isLeap y then 29 else 28)
  else if m = 4 ∨ m = 6 ∨ m = 9 ∨ m = 11 then 30
  else 31

/-- Model of `pd.to_datetime(x, format='%m/%d/%Y', errors='coerce')` on one
text cell: month, day and year separated by `/` (1–2 digit month and day,
up to 4 digit year, as `strptime` accepts), checked against the calendar;
anything else coerces to null. -/
def parseDateMDY (s : String) : Option Date :=
  match splitOnChar '/' s.data with
  | [ms, ds, ys] =>
    if (!ms.isEmpty && ms.all Char.isDigit && ms.length ≤ 2) &&
       (!ds.isEmpty && ds.all Char.isDigit && ds.length ≤ 2) &&
       (!ys.isEmpty && ys.all Char.isDigit && ys.length ≤ 4) then
      let m := digitsToNat ms
      let d := digitsToNat ds
      let y := digitsToNat ys
      if 1 ≤ m && m ≤ 12 && 1 ≤ d && d ≤ daysInMonth y m then
        some ⟨y, m, d⟩
      else none
    else none
  | _ => none

/-- Admission record as parsed from the CSV: one optional text cell per
recognized column (`none` = missing cell, i.e. pandas `NaN`). -/
structure RawRow where
  Name : Option String
  Age : Option String
  Gender : Option String
  Blood_Type : Option String
  Medical_Condition : Option String
  Date_of_Admission : Option String
  Doctor : Option String
  Hospital : Option String
  Insurance_Provider : Option String
  Billing_Amount : Option String
  Room_Number : Option String
  Admission_Type : Option String
  Discharge_Date : Option String
  Medication : Option String
  Test_Results : Option String
deriving DecidableEq

/-- Admission record after the Cleaner: text trimmed, `Age` and
`Billing_Amount` numeric-or-null, the two dates date-or-null. -/
structure CleanRow where
  Name : Option String
  Age : Option ℚ
  Gender : Option String
  Blood_Type : Option String
  Medical_Condition : Option String
  Date_of_Admission : Option Date
  Doctor : Option String
  Hospital : Option String
  Insurance_Provider : Option String
  Billing_Amount : Option ℚ
  Room_Number : Option String
  Admission_Type : Option String
  Discharge_Date : Option Date
  Medication : Option String
  Test_Results : Option String
deriving DecidableEq

/-- Model of the loader's column normalization:
`df.columns = [col.replace(" ", "_") for col in df.columns]`. -/
def normalizeColumn (s : String) : String :=
  String.mk (s.data.map fun c => if c = ' ' then '_' else c)

/-- The whole header row normalized at once. -/
def normalizeColumns (cols : List String) : List String :=
  cols.map normalizeColumn

/-- Canonical underscored names of the 15 Admission Record columns,
in the order the generated CSV lays them out. -/
def recognizedColumns : List String :=
  ["Name", "Age", "Gender", "Blood_Type", "Medical_Condition",
   "Date_of_Admission", "Doctor", "Hospital", "Insurance_Provider",
   "Billing_Amount", "Room_Number", "Admission_Type", "Discharge_Date",
   "Medication", "Test_Results"]

/-- Leading and trailing whitespace removed, as `str.strip()` does. -/
def strTrim (s : String) : String :=
  String.mk (((s.data.dropWhile Char.isWhitespace).reverse.dropWhile Char.isWhitespace).reverse)

/-- Trimming of one text cell (`.str.strip()`: null stays null). -/
def optTrim (o : Option String) : Option String :=
  o.map strTrim

/-- Model of the `Billing_Amount` coercion: trim (the column is a text
column, so `.str.strip()` hits it first), strip `$` and `,` anywhere
(`str.replace(r'[$,]', '', regex=True)`), then `to_numeric` with coercion. -/
def billingCoerce (o : Option String) : Option ℚ :=
  match optTrim o with
  | none => none
  | some s => toNumeric (String.mk (s.data.filter fun c => !(c == '$' || c == ',')))

/-- Model of the `Age` coercion: trim then `to_numeric` with coercion. -/
def ageCoerce (o : Option String) : Option ℚ :=
  (optTrim o).bind toNumeric

/-- Model of a date-column coercion: trim then `to_datetime` with format
`%m/%d/%Y` and coercion. -/
def dateCoerce (o : Option String) : Option Date :=
  (optTrim o).bind parseDateMDY

/-- Cleaning of one row: trim every text cell, coerce `Billing_Amount`,
`Age`, `Date_of_Admission` and `Discharge_Date`. -/
def cleanRow (r : RawRow) : CleanRow where
  Name := optTrim r.Name
  Age := ageCoerce r.Age
  Gender := optTrim r.Gender
  Blood_Type := optTrim r.Blood_Type
  Medical_Condition := optTrim r.Medical_Condition
  Date_of_Admission := dateCoerce r.Date_of_Admission
  Doctor := optTrim r.Doctor
  Hospital := optTrim r.Hospital
  Insurance_Provider := optTrim r.Insurance_Provider
  Billing_Amount := billingCoerce r.Billing_Amount
  Room_Number := optTrim r.Room_Number
  Admission_Type := optTrim r.Admission_Type
  Discharge_Date := dateCoerce r.Discharge_Date
  Medication := optTrim r.Medication
  Test_Results := optTrim r.Test_Results

/-- The Cleaner stage: per-cell cleaning followed by the required-field
gate `df.dropna(subset=['Name', 'Date_of_Admission'], inplace=True)`. -/
def cleaner (rows : List RawRow) : List CleanRow :=
  (rows.map cleanRow).filter fun r => r.Name.isSome && r.Date_of_Admission.isSome

example : toNumeric "1234.50" = some (mkRat 123450 100) := by decide
example : billingCoerce (some "$1,234.50") = some (mkRat 123450 100) := by decide
example : (mkRat 123450 100 : ℚ) = 1234.5 := by norm_num [Rat.mkRat_eq_div]
example : billingCoerce (some "abc") = none := by decide
example : ageCoerce (some " 40 ") = some (mkRat 40 1) := by decide
example : toNumeric "-2.5" = some (mkRat (-25) 10) := by decide
example : parseDateMDY "13/40/2024" = none := by decide
example : parseDateMDY "01/15/2024" = some ⟨2024, 1, 15⟩ := by decide
example : parseDateMDY "02/29/2023" = none := by decide
example : parseDateMDY "02/29/2024" = some ⟨2024, 2, 29⟩ := by decide
example : strTrim "  a b " = "a b" := by decide

/-!
SHA-256 (FIPS 180-4), the hash `hashlib.sha256` computes, modelled over
natural numbers: 32-bit words are naturals reduced modulo `2 ^ 32`, a
message is its list of bytes.
-/

/-- Reduction to a 32-bit word. -/
def w32 (n : Nat) : Nat := n % 2 ^ 32

/-- Right rotation of a 32-bit word by `n` bits. -/
def rotr (n x : Nat) : Nat := w32 ((x >>> n) ||| (x <<< (32 - n)))

/-- Bitwise complement of a 32-bit word. -/
def bnot32 (x : Nat) : Nat := 2 ^ 32 - 1 - x

/-- The SHA-256 choice function. -/
def shaCh (x y z : Nat) : Nat := (x &&& y) ^^^ (bnot32 x &&& z)

/-- The SHA-256 majority function. -/
def shaMaj (x y z : Nat) : Nat := ((x &&& y) ^^^ (x &&& z)) ^^^ (y &&& z)

/-- Upper-case sigma 0. -/
def bigSigma0 (x : Nat) : Nat := (rotr 2 x ^^^ rotr 13 x) ^^^ rotr 22 x

/-- Upper-case sigma 1. -/
def bigSigma1 (x : Nat) : Nat := (rotr 6 x ^^^ rotr 11 x) ^^^ rotr 25 x

/-- Lower-case sigma 0. -/
def smallSigma0 (x : Nat) : Nat := (rotr 7 x ^^^ rotr 18 x) ^^^ (x >>> 3)

/-- Lower-case sigma 1. -/
def smallSigma1 (x : Nat) : Nat := (rotr 17 x ^^^ rotr 19 x) ^^^ (x >>> 10)

/-- Round constants of FIPS 180-4 (fractional parts of the cube roots of
the first 64 primes), written in decimal. -/
def K256 : List Nat :=
  [1116352408, 1899447441, 3049323471, 3921009573, 961987163,
   1508970993, 2453635748, 2870763221, 3624381080, 310598401,
   607225278, 1426881987, 1925078388, 2162078206, 2614888103,
   3248222580, 3835390401, 4022224774, 264347078, 604807628,
   770255983, 1249150122, 1555081692, 1996064986, 2554220882,
   2821834349, 2952996808, 3210313671, 3336571891, 3584528711,
   113926993, 338241895, 666307205, 773529912, 1294757372,
   1396182291, 1695183700, 1986661051, 2177026350, 2456956037,
   2730485921, 2820302411, 3259730800, 3345764771, 3516065817,
   3600352804, 4094571909, 275423344, 430227734, 506948616,
   659060556, 883997877, 958139571, 1322822218, 1537002063,
   1747873779, 1955562222, 2024104815, 2227730452, 2361852424,
   2428436474, 2756734187, 3204031479, 3329325298]

/-- Initial hash state of FIPS 180-4 (fractional parts of the square roots
of the first 8 primes), written in decimal. -/
def H256 : List Nat :=
  [1779033703, 3144134277, 1013904242, 2773480762, 1359893119,
   2600822924, 528734635, 1541459225]

/-- Message padding: `0x80`, zeros up to 56 mod 64 bytes, then the bit
length as 8 big-endian bytes. -/
def padMessage (msg : List Nat) : List Nat :=
  let l := msg.length
  let k := (119 - l % 64) % 64
  msg ++ 0x80 :: (List.replicate k 0 ++ (List.range 8).map fun i => ((8 * l) >>> (8 * (7 - i))) % 256)

/-- Big-endian grouping of bytes into 32-bit words. -/
def bytesToWords : List Nat → List Nat
  | a :: b :: c :: d :: rest => ((a <<< 24) ||| (b <<< 16) ||| (c <<< 8) ||| d) :: bytesToWords rest
  | _ => []

/-- Message schedule: the 16 block words extended to 64. -/
def scheduleW (ws : List Nat) : List Nat :=
  (List.range 48).foldl
    (fun acc _ =>
      let n := acc.length
      acc ++ [w32 (smallSigma1 (acc.getD (n - 2) 0) + acc.getD (n - 7) 0 +
                   smallSigma0 (acc.getD (n - 15) 0) + acc.getD (n - 16) 0)])
    ws

/-- One round of the compression function on the 8-word working state. -/
def roundStep (s : List Nat) (kw : Nat × Nat) : List Nat :=
  match s with
  | [a, b, c, d, e, f, g, h] =>
    let t1 := w32 (h + bigSigma1 e + shaCh e f g + kw.1 + kw.2)
    let t2 := w32 (bigSigma0 a + shaMaj a b c)
    [w32 (t1 + t2), a, b, c, w32 (d + t1), e, f, g]
  | other => other

/-- Compression of one 512-bit block into the hash state. -/
def compress (hs : List Nat) (blockWords : List Nat) : List Nat :=
  let s := (K256.zip (scheduleW blockWords)).foldl roundStep hs
  List.zipWith (fun x y => w32 (x + y)) hs s

/-- SHA-256 digest (32 bytes) of a byte list. -/
def sha256bytes (msg : List Nat) : List Nat :=
  let padded := padMessage msg
  let final := (List.range (padded.length / 64)).foldl
    (fun hs i => compress hs (bytesToWords ((padded.drop (64 * i)).take 64))) H256
  final.flatMap fun w => [(w >>> 24) % 256, (w >>> 16) % 256, (w >>> 8) % 256, w % 256]

/-- Lower-case hexadecimal digit. -/
def hexDigitChar (n : Nat) : Char :=
  if n < 10 then Char.ofNat (Char.toNat '0' + n) else Char.ofNat (Char.toNat 'a' + (n - 10))

/-- Lower-case hexadecimal rendering of a byte list. -/
def bytesToHexString (bs : List Nat) : String :=
  String.mk (bs.flatMap fun b => [hexDigitChar (b / 16), hexDigitChar (b % 16)])

/-- UTF-8 encoding of one character, as Python `str.encode()` produces. -/
def utf8Bytes (c : Char) : List Nat :=
  let n := c.toNat
  if n < 0x80 then [n]
  else if n < 0x800 then [0xc0 ||| (n >>> 6), 0x80 ||| (n % 64)]
  else if n < 0x10000 then
    [0xe0 ||| (n >>> 12), 0x80 ||| ((n >>> 6) % 64), 0x80 ||| (n % 64)]
  else
    [0xf0 ||| (n >>> 18), 0x80 ||| ((n >>> 12) % 64), 0x80 ||| ((n >>> 6) % 64), 0x80 ||| (n % 64)]

/-- UTF-8 bytes of a string. -/
def strBytes (s : String) : List Nat :=
  s.data.flatMap utf8Bytes

/-- Model of `hashlib.sha256(x.encode()).hexdigest()`: the 64-character
lower-case hexadecimal SHA-256 digest of a string. -/
def sha256hex (s : String) : String :=
  bytesToHexString (sha256bytes (strBytes s))

example : sha256hex "abc" =
    "ba7816bf8f01cfea414140de5dae2223b00361a396177a9cb410ff61f20015ad" := by decide
example : sha256hex "" =
    "e3b0c44298fc1c149afbf4c8996fb92427ae41e4649b934ca495991b7852b855" := by decide

/-!
Deduplicator: `drop_duplicates()` then
`groupby(group_cols, as_index=False).agg({'Age': 'min'})` with
`group_cols` = every column except `Age`.
-/

/-- Exact-duplicate removal keeping the first occurrence, the effect of
`df.drop_duplicates(inplace=True)` (pandas treats equal nulls as equal). -/
def dedupFirstAux (seen : List CleanRow) : List CleanRow → List CleanRow
  | [] => []
  | r :: rs => if r ∈ seen then dedupFirstAux seen rs else r :: dedupFirstAux (r :: seen) rs

/-- First pass of the Deduplicator. -/
def dedupFirst (rows : List CleanRow) : List CleanRow :=
  dedupFirstAux [] rows

/-- Equality on every column except `Age` — the `groupby` key. -/
def sameKey (r s : CleanRow) : Bool :=
  r.Name == s.Name && r.Gender == s.Gender && r.Blood_Type == s.Blood_Type &&
  r.Medical_Condition == s.Medical_Condition && r.Date_of_Admission == s.Date_of_Admission &&
  r.Doctor == s.Doctor && r.Hospital == s.Hospital && r.Insurance_Provider == s.Insurance_Provider &&
  r.Billing_Amount == s.Billing_Amount && r.Room_Number == s.Room_Number &&
  r.Admission_Type == s.Admission_Type && r.Discharge_Date == s.Discharge_Date &&
  r.Medication == s.Medication && r.Test_Results == s.Test_Results

/-- True when no column of the `groupby` key is null.  Pandas `groupby`
keeps a row only when this holds (its default `dropna=True`). -/
def keyComplete (r : CleanRow) : Bool :=
  r.Name.isSome && r.Gender.isSome && r.Blood_Type.isSome &&
  r.Medical_Condition.isSome && r.Date_of_Admission.isSome &&
  r.Doctor.isSome && r.Hospital.isSome && r.Insurance_Provider.isSome &&
  r.Billing_Amount.isSome && r.Room_Number.isSome && r.Admission_Type.isSome &&
  r.Discharge_Date.isSome && r.Medication.isSome && r.Test_Results.isSome

/-- Chronological order on dates is lexicographic on (year, month, day). -/
abbrev DateKey := ℕ ×ₗ ℕ ×ₗ ℕ

/-- Encoding of a date for the sort key. -/
def Date.toKey (d : Date) : DateKey :=
  toLex (d.year, toLex (d.month, d.day))

/-- Nullable cell as a `WithBot` value (null below every value). -/
def optKey {α : Type} (o : Option α) : WithBot α :=
  match o with
  | none => ⊥
  | some a => (a : WithBot α)

/-- Text cell as its character list, so that `≤` on it is the code-point
lexicographic order Python compares strings by. -/
def textKey (o : Option String) : WithBot (List Char) :=
  optKey (o.map String.data)

/-- Tuple of the 14 `groupby` key columns in dataframe column order, as a
lexicographic product, so that `≤` is the order pandas sorts group keys by. -/
abbrev GroupKey :=
  WithBot (List Char) ×ₗ (WithBot (List Char) ×ₗ (WithBot (List Char) ×ₗ (WithBot (List Char) ×ₗ
  (WithBot DateKey ×ₗ (WithBot (List Char) ×ₗ (WithBot (List Char) ×ₗ (WithBot (List Char) ×ₗ
  (WithBot ℚ ×ₗ (WithBot (List Char) ×ₗ (WithBot (List Char) ×ₗ (WithBot DateKey ×ₗ
  (WithBot (List Char) ×ₗ WithBot (List Char)))))))))))))

/-- The `groupby` key of a row. -/
def rowKey (r : CleanRow) : GroupKey :=
  toLex (textKey r.Name, toLex (textKey r.Gender, toLex (textKey r.Blood_Type,
  toLex (textKey r.Medical_Condition, toLex (optKey (r.Date_of_Admission.map Date.toKey),
  toLex (textKey r.Doctor, toLex (textKey r.Hospital, toLex (textKey r.Insurance_Provider,
  toLex (optKey r.Billing_Amount, toLex (textKey r.Room_Number, toLex (textKey r.Admission_Type,
  toLex (optKey (r.Discharge_Date.map Date.toKey), toLex (textKey r.Medication,
  textKey r.Test_Results)))))))))))))

/-- Order on rows by their `groupby` key. -/
def keyLE (a b : CleanRow) : Prop :=
  rowKey a ≤ rowKey b

instance : DecidableRel keyLE :=
  fun a b => inferInstanceAs (Decidable (rowKey a ≤ rowKey b))

instance : IsTrans CleanRow keyLE :=
  ⟨fun _ _ _ h1 h2 => le_trans h1 h2⟩

instance : IsTotal CleanRow keyLE :=
  ⟨fun _ _ => le_total _ _⟩

/-- First row of each `groupby` group, in first-occurrence order. -/
def groupRepsAux (seen : List CleanRow) : List CleanRow → List CleanRow
  | [] => []
  | r :: rs =>
    if seen.any (fun s => sameKey s r) then groupRepsAux seen rs
    else r :: groupRepsAux (r :: seen) rs

/-- Group representatives of a batch. -/
def groupReps (rows : List CleanRow) : List CleanRow :=
  groupRepsAux [] rows

/-- Minimum of a list of rationals, none when empty. -/
def minOpt : List ℚ → Option ℚ
  | [] => none
  | a :: as =>
    match minOpt as with
    | none => some a
    | some b => some (min a b)

/-- Skip-NA minimum of `Age` over a group, the pandas `'min'` aggregate. -/
def minAge (rows : List CleanRow) : Option ℚ :=
  minOpt (rows.filterMap CleanRow.Age)

/-- Second pass of the Deduplicator: rows with a null key column are
dropped (`groupby` default `dropna=True`), groups are sorted by key
(`sort=True`) and each group yields one row whose `Age` is the group's
skip-NA minimum. -/
def nearDedup (rows : List CleanRow) : List CleanRow :=
  let valid := rows.filter keyComplete
  (List.insertionSort keyLE (groupReps valid)).map fun r0 =>
    { r0 with Age := minAge (valid.filter fun r => sameKey r r0) }

/-- The whole Deduplicator stage. -/
def deduplicator (rows : List CleanRow) : List CleanRow :=
  nearDedup (dedupFirst rows)

/-!
Keyer: the `SourceAdmissionID` business key.
-/

/-- Two-digit zero-padded numeral. -/
def pad2 (n : Nat) : String :=
  if n < 10 then "0" ++ toString n else toString n

/-- Four-digit zero-padded numeral. -/
def pad4 (n : Nat) : String :=
  if n < 10 then "000" ++ toString n
  else if n < 100 then "00" ++ toString n
  else if n < 1000 then "0" ++ toString n
  else toString n

/-- Text a midnight `datetime64` cell renders to under `astype(str)`:
ISO `YYYY-MM-DD`. -/
def dateToText (d : Date) : String :=
  pad4 d.year ++ "-" ++ pad2 d.month ++ "-" ++ pad2 d.day

/-- Text of a nullable text cell with `fillna('')`. -/
def textOrEmpty (o : Option String) : String :=
  o.getD ""

/-- Text of a nullable date cell with `fillna('')`. -/
def dateTextOrEmpty (o : Option Date) : String :=
  (o.map dateToText).getD ""

/-- The `composite_key` column:
`df[key_cols].fillna('').astype(str).apply(lambda x: '|'.join(x), axis=1)`
over `key_cols = ['Name', 'Date_of_Admission', 'Doctor', 'Hospital',
'Medical_Condition']`. -/
def compositeKey (r : CleanRow) : String :=
  String.intercalate "|"
    [textOrEmpty r.Name, dateTextOrEmpty r.Date_of_Admission, textOrEmpty r.Doctor,
     textOrEmpty r.Hospital, textOrEmpty r.Medical_Condition]

/-- Admission record with its business key. -/
structure KeyedRow extends CleanRow where
  SourceAdmissionID : String
deriving DecidableEq

/-- Keying of one row: `hashlib.sha256(composite_key.encode()).hexdigest()`. -/
def keyRow (r : CleanRow) : KeyedRow :=
  { toCleanRow := r, SourceAdmissionID := sha256hex (compositeKey r) }

/-- The Keyer stage. -/
def keyer (rows : List CleanRow) : List KeyedRow :=
  rows.map keyRow

/-- The whole extract-clean-deduplicate-key pipeline of
`extract_and_validate_csv` (on an already-parsed batch). -/
def extract_and_validate_csv (rows : List RawRow) : List KeyedRow :=
  keyer (deduplicator (cleaner rows))

/-- Calls the orchestrator makes to its external collaborators. -/
inductive ExtCall where
  | staging (n : Nat)
  | warehouse
deriving DecidableEq

/-- Model of `main_etl_process`: the returned `(ok, message)` pair and the
list of external calls (Staging Sink load, then Warehouse Merger), in order. -/
def main_etl_process (rows : List RawRow) : (Bool × String) × List ExtCall :=
  let cleanDf := extract_and_validate_csv rows
  if cleanDf.isEmpty then
    ((false, "ETL process halted: No valid data to load."), [])
  else
    ((true, "Successfully loaded " ++ toString cleanDf.length ++ " new admission records."),
     [ExtCall.staging cleanDf.length, ExtCall.warehouse])

/-!
Concrete admission rows used to exercise the pipeline, and helper lemmas.
-/

/-- Fully populated admission row, every cell valid. -/
def rawBase : RawRow where
  Name := some "John Smith"
  Age := some "40"
  Gender := some "Male"
  Blood_Type := some "A+"
  Medical_Condition := some "Diabetes"
  Date_of_Admission := some "01/15/2024"
  Doctor := some "Dr. Emily Brown"
  Hospital := some "General Hospital"
  Insurance_Provider := some "Aetna"
  Billing_Amount := some "$1,234.50"
  Room_Number := some "101"
  Admission_Type := some "Urgent"
  Discharge_Date := some "01/20/2024"
  Medication := some "Aspirin"
  Test_Results := some "Normal"

/-- Different admission: other patient, other age. -/
def rawAlice : RawRow :=
  { rawBase with Name := some "Alice Jones", Age := some "35" }

/-- Row missing its `Name` cell. -/
def rawNoName : RawRow :=
  { rawBase with Name := none }

/-- Row whose admission date has an invalid month and day. -/
def rawBadDate : RawRow :=
  { rawBase with Date_of_Admission := some "13/40/2024" }

/-- Row whose billing amount is unparseable text. -/
def rawAbcBilling : RawRow :=
  { rawBase with Billing_Amount := some "abc" }

/-- Row whose name is only whitespace. -/
def rawWsName : RawRow :=
  { rawBase with Name := some "   " }

/-- Cleaned row identical to `cleanRow rawBase` except that its discharge
date failed coercion and is null. -/
def crNoDischarge40 : CleanRow :=
  { cleanRow rawBase with Discharge_Date := none }

/-- Same admission entered with age 35 instead of 40. -/
def crNoDischarge35 : CleanRow :=
  { crNoDischarge40 with Age := some (mkRat 35 1) }

example : cleanRow rawBase = { cleanRow rawBase with Discharge_Date := some ⟨2024, 1, 20⟩ } := by
  decide

/-- Every row the exact-duplicate pass emits comes from its input. -/
theorem dedupFirstAux_subset (l : List CleanRow) :
    ∀ (seen : List CleanRow) (r : CleanRow), r ∈ dedupFirstAux seen l → r ∈ l := by
  induction l with
  | nil => intro seen r h; simp [dedupFirstAux] at h
  | cons a as ih =>
    intro seen r h
    simp only [dedupFirstAux] at h
    by_cases hs : a ∈ seen
    · simp only [if_pos hs] at h
      exact List.mem_cons_of_mem _ (ih seen r h)
    · simp only [if_neg hs, List.mem_cons] at h
      rcases h with h | h
      · exact h ▸ List.mem_cons_self _ _
      · exact List.mem_cons_of_mem _ (ih _ r h)

/-- Every group representative comes from the input batch. -/
theorem groupRepsAux_subset (l : List CleanRow) :
    ∀ (seen : List CleanRow) (r : CleanRow), r ∈ groupRepsAux seen l → r ∈ l := by
  induction l with
  | nil => intro seen r h; simp [groupRepsAux] at h
  | cons a as ih =>
    intro seen r h
    simp only [groupRepsAux] at h
    by_cases hs : seen.any fun s => sameKey s a
    · simp only [if_pos hs] at h
      exact List.mem_cons_of_mem _ (ih seen r h)
    · simp only [if_neg hs, List.mem_cons] at h
      rcases h with h | h
      · exact h ▸ List.mem_cons_self _ _
      · exact List.mem_cons_of_mem _ (ih _ r h)

/-- Rows surviving the Cleaner pass its required-field gate. -/
theorem cleaner_mem (rows : List RawRow) (r : CleanRow) (h : r ∈ cleaner rows) :
    r.Name.isSome = true ∧ r.Date_of_Admission.isSome = true := by
  unfold cleaner at h
  simpa [Bool.and_eq_true] using (List.mem_filter.mp h).2

/-- Every row the near-dedup pass emits takes all fields but `Age` from a
row of its input whose `groupby` key has no null. -/
theorem nearDedup_mem (rows : List CleanRow) (r : CleanRow) (h : r ∈ nearDedup rows) :
    ∃ r0, r0 ∈ rows ∧ keyComplete r0 = true ∧
      r.Name = r0.Name ∧ r.Date_of_Admission = r0.Date_of_Admission := by
  simp only [nearDedup] at h
  obtain ⟨r0, hr0, rfl⟩ := List.mem_map.mp h
  have h1 : r0 ∈ groupReps (rows.filter keyComplete) :=
    (List.mem_insertionSort keyLE).mp hr0
  have h2 : r0 ∈ rows.filter keyComplete := groupRepsAux_subset _ _ _ h1
  have h3 := List.mem_filter.mp h2
  exact ⟨r0, h3.1, h3.2, rfl, rfl⟩

/-- Five strings joined by the fixed delimiter, written out. -/
theorem intercalate_five (a b c d e : String) :
    String.intercalate "|" [a, b, c, d, e] =
      a ++ "|" ++ b ++ "|" ++ c ++ "|" ++ d ++ "|" ++ e := by
  simp [String.intercalate, String.intercalate.go, String.append_assoc]

/-- Trimming a whitespace-only string yields the empty string. -/
theorem strTrim_whitespace (w : String) (h : w.data.all Char.isWhitespace = true) :
    strTrim w = "" := by
  unfold strTrim
  have h1 : w.data.dropWhile Char.isWhitespace = [] := by
    rw [List.dropWhile_eq_nil_iff]
    intro x hx
    exact List.all_eq_true.mp h x hx
  rw [h1]
  rfl

/-- The five columns the business key is computed from. -/
def keyFields (r : CleanRow) :
    Option String × Option Date × Option String × Option String × Option String :=
  (r.Name, r.Date_of_Admission, r.Doctor, r.Hospital, r.Medical_Condition)

/-- The composite key depends only on the five key columns. -/
theorem compositeKey_congr (r s : CleanRow) (h : keyFields r = keyFields s) :
    compositeKey r = compositeKey s := by
  unfold keyFields at h
  simp only [Prod.mk.injEq] at h
  obtain ⟨h1, h2, h3, h4, h5⟩ := h
  simp [compositeKey, h1, h2, h3, h4, h5]

/-!
Claim theorems.
-/

/-- C1: every record the Keyer emits carries as `SourceAdmissionID` the
lower-case hexadecimal SHA-256 digest of its cleaned `Name`,
`Date_of_Admission`, `Doctor`, `Hospital` and `Medical_Condition` values —
each coerced to text with null replaced by the empty string — joined by
`|` in exactly that order; and any two keyed records (same or different
batch) that agree on those five cleaned columns receive identical
`SourceAdmissionID` values, regardless of their other fields. -/
theorem keyer_sha256_idempotent (rows rows2 : List CleanRow) :
    (∀ kr ∈ keyer rows,
      kr.SourceAdmissionID =
        sha256hex (textOrEmpty kr.toCleanRow.Name ++ "|" ++
          dateTextOrEmpty kr.toCleanRow.Date_of_Admission ++ "|" ++
          textOrEmpty kr.toCleanRow.Doctor ++ "|" ++
          textOrEmpty kr.toCleanRow.Hospital ++ "|" ++
          textOrEmpty kr.toCleanRow.Medical_Condition)) ∧
    (∀ kr ∈ keyer rows, ∀ kr2 ∈ keyer rows2,
      keyFields kr.toCleanRow = keyFields kr2.toCleanRow →
      kr.SourceAdmissionID = kr2.SourceAdmissionID) := by
  constructor
  · intro kr hkr
    simp only [keyer] at hkr
    obtain ⟨r0, hr0, rfl⟩ := List.mem_map.mp hkr
    exact congrArg sha256hex
      (intercalate_five (textOrEmpty r0.Name) (dateTextOrEmpty r0.Date_of_Admission)
        (textOrEmpty r0.Doctor) (textOrEmpty r0.Hospital) (textOrEmpty r0.Medical_Condition))
  · intro kr hkr kr2 hkr2 hf
    simp only [keyer] at hkr hkr2
    obtain ⟨r0, _, rfl⟩ := List.mem_map.mp hkr
    obtain ⟨r2, _, rfl⟩ := List.mem_map.mp hkr2
    show sha256hex (compositeKey r0) = sha256hex (compositeKey r2)
    rw [compositeKey_congr r0 r2 hf]

/-- C2 (failing input): two rows of the Deduplicator's input equal on every
field except `Age` (both with a null `Discharge_Date`), forming one group;
the claim expects exactly one surviving record with `Age` 35, but the code
(pandas `groupby` with its default `dropna=True`) drops the whole group and
outputs nothing. -/
theorem neardedup_null_group_dropped :
    crNoDischarge35 = { crNoDischarge40 with Age := some (mkRat 35 1) } ∧
    (mkRat 35 1 : ℚ) = 35 ∧
    deduplicator [crNoDischarge40, crNoDischarge35] = [] := by
  refine ⟨by decide, by norm_num [Rat.mkRat_eq_div], by decide⟩

/-- C3 (failing input): a singleton group whose key columns are all
non-null does pass through the near-dedup pass unchanged, but a singleton
row with a null `Discharge_Date` — a group of size 1 — is removed outright
by the same pass (pandas `groupby` default `dropna=True`), not by being
collapsed into a larger group as the claim requires. -/
theorem neardedup_null_singleton_dropped :
    deduplicator [cleanRow rawBase] = [cleanRow rawBase] ∧
    deduplicator [crNoDischarge40] = [] := by
  exact ⟨by decide, by decide⟩

/-- C4: every record surviving the Cleaner has non-null `Name` and
`Date_of_Admission` (so records null there are absent from its output),
and the invariant is preserved by the Deduplicator and the Keyer. -/
theorem required_field_gate (rows : List RawRow) :
    (∀ r : CleanRow, r.Name = none ∨ r.Date_of_Admission = none → r ∉ cleaner rows) ∧
    (∀ r ∈ cleaner rows, r.Name.isSome = true ∧ r.Date_of_Admission.isSome = true) ∧
    (∀ r ∈ deduplicator (cleaner rows),
      r.Name.isSome = true ∧ r.Date_of_Admission.isSome = true) ∧
    (∀ kr ∈ extract_and_validate_csv rows,
      kr.toCleanRow.Name.isSome = true ∧ kr.toCleanRow.Date_of_Admission.isSome = true) := by
  have h1 : ∀ r ∈ cleaner rows, r.Name.isSome = true ∧ r.Date_of_Admission.isSome = true :=
    fun r hr => cleaner_mem rows r hr
  have h0 : ∀ r : CleanRow, r.Name = none ∨ r.Date_of_Admission = none → r ∉ cleaner rows := by
    intro r hnull hr
    obtain ⟨ha, hb⟩ := h1 r hr
    rcases hnull with hnull | hnull
    · rw [hnull] at ha
      simp at ha
    · rw [hnull] at hb
      simp at hb
  have h2 : ∀ r ∈ deduplicator (cleaner rows),
      r.Name.isSome = true ∧ r.Date_of_Admission.isSome = true := by
    intro r hr
    simp only [deduplicator] at hr
    obtain ⟨r0, hr0, _, hn, hd⟩ := nearDedup_mem _ _ hr
    have hbase := h1 r0 (dedupFirstAux_subset _ _ _ hr0)
    rw [hn, hd]
    exact hbase
  refine ⟨h0, h1, h2, ?_⟩
  intro kr hkr
  simp only [extract_and_validate_csv, keyer] at hkr
  obtain ⟨r0, hr0, rfl⟩ := List.mem_map.mp hkr
  exact h2 r0 hr0

/-- C5 (counterexample): on the spec's empty-after-clean scenario — five
rows all missing `Name` — the orchestrator does halt without external
calls, but its message is not the literal pair `(false, "no valid data")`. -/
theorem orchestrator_message_cex :
    (main_etl_process (List.replicate 5 rawNoName)).1 ≠ (false, "no valid data") := by
  decide

/-- C5 (amended): whenever the pipeline leaves an empty batch, the
orchestrator returns `false` with the halt message
`"ETL process halted: No valid data to load."` and makes no call to the
Staging Sink or the Warehouse Merger. -/
theorem orchestrator_empty_halts (rows : List RawRow)
    (h : extract_and_validate_csv rows = []) :
    main_etl_process rows =
      ((false, "ETL process halted: No valid data to load."), []) := by
  simp [main_etl_process, h]

/-- C5 amended claim instantiated on the spec's five-row scenario. -/
theorem orchestrator_empty_halts_witness :
    extract_and_validate_csv (List.replicate 5 rawNoName) = [] ∧
    main_etl_process (List.replicate 5 rawNoName) =
      ((false, "ETL process halted: No valid data to load."), []) :=
  ⟨by decide, orchestrator_empty_halts _ (by decide)⟩

/-- C6: the `Billing_Amount` coercion strips `$` and `,` and parses a
decimal — `"$1,234.50"` coerces to `1234.50` — while an unparseable value
such as `"abc"` coerces to null and the Cleaner (a total function, so it
never raises on a bad cell) retains the row. -/
theorem billing_coercion_tolerance :
    billingCoerce (some "$1,234.50") = some (1234.5 : ℚ) ∧
    billingCoerce (some "abc") = none ∧
    cleaner [rawAbcBilling] = [cleanRow rawAbcBilling] ∧
    (cleanRow rawAbcBilling).Billing_Amount = none := by
  refine ⟨?_, by decide, by decide, by decide⟩
  rw [show billingCoerce (some "$1,234.50") = some (mkRat 123450 100) from by decide]
  exact congrArg some (show (mkRat 123450 100 : ℚ) = 1234.5 by norm_num [Rat.mkRat_eq_div])

/-- C7: admission and discharge dates are parsed against the fixed format
`MM/DD/YYYY`; `"13/40/2024"` coerces to null and its row is dropped by the
required-field gate, a valid `"01/15/2024"` parses, and every parse that
succeeds yields a calendar-valid month and day. -/
theorem date_format_boundary :
    parseDateMDY "13/40/2024" = none ∧
    cleaner [rawBadDate] = [] ∧
    dateCoerce (some "01/15/2024") = some ⟨2024, 1, 15⟩ ∧
    (∀ (s : String) (d : Date), parseDateMDY s = some d →
      1 ≤ d.month ∧ d.month ≤ 12 ∧ 1 ≤ d.day ∧ d.day ≤ daysInMonth d.year d.month) := by
  refine ⟨by decide, by decide, by decide, ?_⟩
  intro s d h
  unfold parseDateMDY at h
  rcases hsp : splitOnChar '/' s.data with _ | ⟨ms, _ | ⟨ds, _ | ⟨ys, _ | ⟨z, zs⟩⟩⟩⟩ <;>
    rw [hsp] at h <;> simp only [] at h
  · exact absurd h (by simp)
  · exact absurd h (by simp)
  · exact absurd h (by simp)
  · split at h
    · split at h
      · rename_i hc
        simp only [Bool.and_eq_true, decide_eq_true_eq] at hc
        obtain ⟨⟨⟨hm1, hm2⟩, hd1⟩, hd2⟩ := hc
        obtain rfl := Option.some.inj h
        exact ⟨hm1, hm2, hd1, hd2⟩
      · exact absurd h (by simp)
    · exact absurd h (by simp)
  · exact absurd h (by simp)

/-- C8 (counterexample): header normalization replaces spaces only; a
header differing from the canonical name in case alone is not mapped to
the canonical name, so recognition is not case-insensitive. -/
theorem header_case_sensitive_cex :
    normalizeColumn "date of admission" = "date_of_admission" ∧
    normalizeColumn "date of admission" ≠ "Date_of_Admission" := by
  decide

/-- C8 (amended): header recognition is spacing-insensitive — immediately
after parse every column name has its spaces replaced by underscores, so
the 15 Admission Record headers written with spaces map exactly to the
canonical underscored names — but it is case-sensitive. -/
theorem header_space_normalization :
    normalizeColumns
      ["Name", "Age", "Gender", "Blood Type", "Medical Condition", "Date of Admission",
       "Doctor", "Hospital", "Insurance Provider", "Billing Amount", "Room Number",
       "Admission Type", "Discharge Date", "Medication", "Test Results"] =
      recognizedColumns := by
  decide

/-- C9: the near-dedup pass emits its rows sorted by the lexicographic
order on the tuple of non-`Age` columns (pandas `groupby` `sort=True`),
not in input order: a batch given as (John, Alice) comes out as
(Alice, John). -/
theorem neardedup_output_sorted :
    (∀ rows : List CleanRow, List.Sorted keyLE (nearDedup rows)) ∧
    nearDedup [cleanRow rawBase, cleanRow rawAlice] =
      [cleanRow rawAlice, cleanRow rawBase] ∧
    keyLE (cleanRow rawAlice) (cleanRow rawBase) := by
  refine ⟨?_, by decide, by decide⟩
  intro rows
  simp only [nearDedup]
  exact List.Pairwise.map _ (fun a b hab => hab)
    (List.sorted_insertionSort keyLE (groupReps (rows.filter keyComplete)))

/-- C10: a whitespace-only `Name` trims to the empty string, which is not
null, so the row passes the required-field gate and is retained, and it
contributes an empty first field to the composite key hashed into
`SourceAdmissionID`. -/
theorem whitespace_name_retained :
    (∀ (r : RawRow) (w : String), r.Name = some w → w.data.all Char.isWhitespace = true →
      (cleanRow r).Name = some "" ∧
      ((cleanRow r).Date_of_Admission.isSome = true → cleaner [r] = [cleanRow r])) ∧
    cleaner [rawWsName] = [cleanRow rawWsName] ∧
    (cleanRow rawWsName).Name = some "" ∧
    compositeKey (cleanRow rawWsName) =
      "|2024-01-15|Dr. Emily Brown|General Hospital|Diabetes" := by
  refine ⟨?_, by decide, by decide, by decide⟩
  intro r w hn hws
  have hname : (cleanRow r).Name = some "" := by
    show optTrim r.Name = some ""
    rw [hn]
    simp [optTrim, strTrim_whitespace w hws]
  refine ⟨hname, fun hd => ?_⟩
  simp [cleaner, List.filter, hname, hd]
